import Mathlib

/-!
Verification development for the `ctm_rs` contact-center agent-state monitor
broker.  The Rust sources are shallowly embedded: byte buffers are `List Nat`
(each entry a byte value), Rust `String` values are their UTF-8 byte lists,
machine integers are `Nat`/`Int` with explicit wrap-around where overflow can
occur, and fallible code (indexing panics, `unwrap`) returns `Option`, with
`none` modelling a panic.
-/

namespace CtmRs

/-- Byte buffers: lists of byte values (each `< 256` for inputs of interest). -/
abbrev Bytes := List Nat

/-- Big-endian assembly of two bytes, as in `impl Deserializable for u16`
(`src/cisco/deserializable.rs`): `result |= buffer[1-i] << 8*i`. -/
def be16 (b0 b1 : Nat) : Nat := b0 * 256 + b1

/-- Big-endian assembly of four bytes, as in `impl Deserializable for u32`. -/
def be32 (b0 b1 b2 b3 : Nat) : Nat := ((b0 * 256 + b1) * 256 + b2) * 256 + b3

/-- `impl Deserializable for u16`: read two bytes big-endian, return the
remainder `buffer[2..]`.  Indexing a shorter buffer panics (`none`). -/
def u16_deserialize (buffer : Bytes) : Option (Bytes × Nat) :=
  match buffer with
  | b0 :: b1 :: rest => some (rest, be16 b0 b1)
  | _ => none

/-- `impl Deserializable for u32`: read four bytes big-endian, return the
remainder `buffer[4..]`. -/
def u32_deserialize (buffer : Bytes) : Option (Bytes × Nat) :=
  match buffer with
  | b0 :: b1 :: b2 :: b3 :: rest => some (rest, be32 b0 b1 b2 b3)
  | _ => none

/-- Two's-complement reading of a 32-bit big-endian value, for
`impl Deserializable for i32`. -/
def i32_of_be (v : Nat) : Int :=
  if v < 2 ^ 31 then (v : Int) else (v : Int) - 2 ^ 32

/-- `impl Deserializable for i32`: four bytes big-endian, two's complement. -/
def i32_deserialize (buffer : Bytes) : Option (Bytes × Int) :=
  match buffer with
  | b0 :: b1 :: b2 :: b3 :: rest => some (rest, i32_of_be (be32 b0 b1 b2 b3))
  | _ => none

/-- Is `c` a UTF-8 continuation byte (`0x80 ..= 0xBF`)? -/
def isUtf8Cont (c : Nat) : Bool := 0x80 ≤ c && c ≤ 0xBF

/-- UTF-8 validity of a byte list, modelling Rust's `String::from_utf8`
acceptance condition (the standard well-formedness table: ASCII, 2-byte
`C2..DF`, 3-byte with the `E0`/`ED` restrictions, 4-byte with the `F0`/`F4`
restrictions). -/
def validUtf8 : Bytes → Bool
  | [] => true
  | b :: rest =>
    if b < 0x80 then validUtf8 rest
    else if b < 0xC2 then false
    else if b ≤ 0xDF then
      match rest with
      | c1 :: rest1 => isUtf8Cont c1 && validUtf8 rest1
      | [] => false
    else if b ≤ 0xEF then
      match rest with
      | c1 :: c2 :: rest2 =>
        (if b = 0xE0 then 0xA0 ≤ c1 && c1 ≤ 0xBF
         else if b = 0xED then 0x80 ≤ c1 && c1 ≤ 0x9F
         else isUtf8Cont c1) && isUtf8Cont c2 && validUtf8 rest2
      | _ => false
    else if b ≤ 0xF4 then
      match rest with
      | c1 :: c2 :: c3 :: rest3 =>
        (if b = 0xF0 then 0x90 ≤ c1 && c1 ≤ 0xBF
         else if b = 0xF4 then 0x80 ≤ c1 && c1 ≤ 0x8F
         else isUtf8Cont c1) && isUtf8Cont c2 && isUtf8Cont c3 && validUtf8 rest3
      | _ => false
    else false

/-- `impl Serializable for String` (`src/cisco/serializable.rs`): push the
UTF-8 bytes of the string, then a NUL terminator. -/
def string_serialize (s : Bytes) : Bytes := s ++ [0]

/-- `impl Deserializable for String` (`src/cisco/deserializable.rs`): locate
the first NUL (`position(..).unwrap()` — `none` when absent), take the bytes
before it, require valid UTF-8 (`String::from_utf8(..).unwrap()` — `none` when
invalid), and return the remainder after the NUL.  Result is
`(remainder, decoded string bytes)`, matching the Rust `(Vec<u8>, Self)`. -/
def string_deserialize (buffer : Bytes) : Option (Bytes × Bytes) :=
  match buffer.findIdx? (fun b => b == 0) with
  | none => none
  | some index =>
    let result := buffer.take index
    if validUtf8 result then some (buffer.drop (index + 1), result) else none

/-- 2^64, the modulus of Rust `u64` arithmetic. -/
def U64_MOD : Nat := 18446744073709551616

/-- Wrapping `u64` subtraction `a - b` (release-mode Rust semantics), for
`a < 2^64` and `b < 2^64`. -/
def u64_wrapping_sub (a b : Nat) : Nat := (U64_MOD + a - b) % U64_MOD

/-!  ## AgentInfo and its setters (`src/ctm/agent_info.rs`)  -/

/-- The projection record `AgentInfo`.  `icm_agent_id : i32` is an `Int`,
`agent_state`/`reason_code`/`skill_group_id : u16`, `direction : u32`,
`state_duration : u64` are `Nat`, and the two strings are UTF-8 byte lists. -/
structure AgentInfo where
  icm_agent_id : Int
  agent_id : Bytes
  agent_state : Nat
  state_duration : Nat
  reason_code : Nat
  skill_group_id : Nat
  direction : Nat
  agent_extension : Bytes
  deriving Repr, DecidableEq

/-- `AgentInfo::new`: all numeric fields zero, empty extension. -/
def AgentInfo.new (agent_id : Bytes) : AgentInfo :=
  { icm_agent_id := 0, agent_id := agent_id, agent_state := 0,
    state_duration := 0, reason_code := 0, skill_group_id := 0,
    direction := 0, agent_extension := [] }

/-- `AgentInfo::set_icm_agent_id`. -/
def AgentInfo.set_icm_agent_id (a : AgentInfo) (v : Int) : AgentInfo :=
  { a with icm_agent_id := v }

/-- `AgentInfo::set_agent_state`. -/
def AgentInfo.set_agent_state (a : AgentInfo) (v : Nat) : AgentInfo :=
  { a with agent_state := v }

/-- `AgentInfo::set_state_duration`: stores `now_unix_seconds - wire_duration`
in `u64` arithmetic (`now` is `SystemTime::now` seconds, passed explicitly
here; the wire value is a `u32` cast up to `u64`). -/
def AgentInfo.set_state_duration (a : AgentInfo) (now v : Nat) : AgentInfo :=
  { a with state_duration := u64_wrapping_sub now v }

/-- `AgentInfo::set_reason_code`: retained only in states 1 (LOGOUT) and
2 (NOT_READY); otherwise forced to 0. -/
def AgentInfo.set_reason_code (a : AgentInfo) (v : Nat) : AgentInfo :=
  match a.agent_state with
  | 1 | 2 => { a with reason_code := v }
  | _ => { a with reason_code := 0 }

/-- `AgentInfo::set_skill_group_id`: retained only in states 4 (TALKING) and
10 (HOLD); otherwise forced to 0. -/
def AgentInfo.set_skill_group_id (a : AgentInfo) (v : Nat) : AgentInfo :=
  match a.agent_state with
  | 4 | 10 => { a with skill_group_id := v }
  | _ => { a with skill_group_id := 0 }

/-- `AgentInfo::set_direction`: retained only in states 4, 7, 8, 10. -/
def AgentInfo.set_direction (a : AgentInfo) (v : Nat) : AgentInfo :=
  match a.agent_state with
  | 4 | 7 | 8 | 10 => { a with direction := v }
  | _ => { a with direction := 0 }

/-- `AgentInfo::set_agent_extension`: cleared in states 1 (LOGOUT) and
9 (UNKNOWN); otherwise set to the incoming value. -/
def AgentInfo.set_agent_extension (a : AgentInfo) (v : Bytes) : AgentInfo :=
  match a.agent_state with
  | 1 | 9 => { a with agent_extension := [] }
  | _ => { a with agent_extension := v }

/-!  ## Decoded message structures (`src/cisco/...`)  -/

/-- Message header `MHDR` (`src/cisco/mhdr.rs`): body `length` and
`message_type`, both 32-bit big-endian on the wire.  The `MessageType` enum's
numeric values live in the missing `message_type.rs`; the raw `u32` is kept. -/
structure MHDR where
  length : Nat
  message_type : Nat
  deriving Repr, DecidableEq

/-- A decoded floating field (`src/cisco/floating_field.rs`): tag, declared
length, and the decoded datum. -/
structure FloatingField (α : Type) where
  tag : Nat
  length : Nat
  data : α
  deriving Repr, DecidableEq

/-- One per-agent record of `AGENT_TEAM_CONFIG_EVENT`
(`src/cisco/supervisor/agent_team_config_event.rs`). -/
structure AgentTeamConfigEventAgent where
  agent_id : Option (FloatingField Bytes)
  agent_flags : Option (FloatingField Nat)
  agent_state : Option (FloatingField Nat)
  state_duration : Option (FloatingField Nat)
  deriving Repr, DecidableEq

/-- Decoded `AGENT_TEAM_CONFIG_EVENT`. -/
structure AgentTeamConfigEvent where
  mhdr : MHDR
  peripheral_id : Nat
  team_id : Nat
  number_of_agents : Nat
  config_operation : Nat
  department_id : Int
  agent_team_name : Option (FloatingField Bytes)
  agents : List AgentTeamConfigEventAgent
  deriving Repr, DecidableEq

/-- Decoded `QUERY_AGENT_STATE_CONF` (`src/cisco/control/query_agent_state_conf.rs`). -/
structure QueryAgentStateConf where
  mhdr : MHDR
  invoke_id : Nat
  agent_state : Nat
  num_skill_groups : Nat
  mrd_id : Int
  num_task : Nat
  agent_mode : Nat
  max_task_limit : Nat
  icm_agent_id : Int
  agent_availability_status : Nat
  department_id : Int
  agent_id : Option (FloatingField Bytes)
  agent_extension : Option (FloatingField Bytes)
  agent_instrument : Option (FloatingField Bytes)
  skill_group_number : Option (FloatingField Nat)
  skill_group_id : Option (FloatingField Nat)
  skill_group_priority : Option (FloatingField Nat)
  skill_group_state : Option (FloatingField Nat)
  internal_agent_state : Option (FloatingField Nat)
  max_beyond_task_limit : Option (FloatingField Nat)
  deriving Repr, DecidableEq

/-- Decoded `AGENT_STATE_EVENT` (`src/cisco/client_event/agent_state_event.rs`). -/
structure AgentStateEvent where
  mhdr : MHDR
  monitor_id : Nat
  peripheral_id : Nat
  session_id : Nat
  peripheral_type : Nat
  skill_group_state : Nat
  state_duration : Nat
  skill_group_number : Nat
  skill_group_id : Nat
  skill_group_priority : Nat
  agent_state : Nat
  event_reason_code : Nat
  mrd_id : Int
  num_tasks : Nat
  agent_mode : Nat
  max_task_limit : Nat
  icm_agent_id : Int
  agent_availability_status : Nat
  num_flt_skill_groups : Nat
  department_id : Int
  cti_client_signature : Option (FloatingField Bytes)
  agent_id : Option (FloatingField Bytes)
  agent_extension : Option (FloatingField Bytes)
  active_terminal : Option (FloatingField Bytes)
  agent_instrument : Option (FloatingField Bytes)
  duration : Option (FloatingField Nat)
  next_agent_state : Option (FloatingField Nat)
  direction : Option (FloatingField Nat)
  flt_skill_group_number : Option (FloatingField Int)
  flt_skill_group_id : Option (FloatingField Nat)
  flt_skill_group_priority : Option (FloatingField Nat)
  flt_skill_group_state : Option (FloatingField Nat)
  max_beyond_task_limit : Option (FloatingField Nat)
  deriving Repr, DecidableEq

/-!  ## Bus events and the agent map (`src/event/broker_event.rs`, `src/ctm/ctm.rs`)  -/

/-- Downstream client ids (`uuid::Uuid` in the source, abstracted to `Nat`). -/
abbrev ClientId := Nat

/-- `BrokerEvent` (`src/event/broker_event.rs`). -/
inductive BrokerEvent where
  | broadCastAgentState (client_id : Option ClientId) (agent_info : AgentInfo)
  | requestAgentStateEvent (peripheral_id : Nat) (agent_id : Bytes)
  | requestHeartBeatReq
  deriving Repr, DecidableEq

/-- The broker's `agent_id → AgentInfo` map (`HashMap` in the source),
embedded as an association list; iteration order is irrelevant to the claims. -/
abbrev AgentMap := List (Bytes × AgentInfo)

/-- `HashMap::get` / `get_mut` lookup. -/
def mapLookup (m : AgentMap) (k : Bytes) : Option AgentInfo :=
  match m.find? (fun p => p.1 == k) with
  | some p => some p.2
  | none => none

/-- Mutation through `get_mut`: replace the value at the first matching key. -/
def mapUpdate (m : AgentMap) (k : Bytes) (v : AgentInfo) : AgentMap :=
  match m with
  | [] => []
  | p :: t => if p.1 == k then (k, v) :: t else p :: mapUpdate t k v

/-- `HashMap::insert` of a fresh key (the source inserts only after a failed
lookup, so plain append is faithful). -/
def mapInsert (m : AgentMap) (k : Bytes) (v : AgentInfo) : AgentMap :=
  m ++ [(k, v)]

/-!  ## Broker handlers for received CTI messages (`CTM::start`, `src/ctm/ctm.rs`)

Each handler takes the observation time `now` (seconds since the Unix epoch,
the value `SystemTime::now()` yields inside `set_state_duration`) and returns
`none` when the Rust code would panic (an `unwrap` of a missing value),
otherwise the updated agent map together with the emitted `BrokerEvent`s in
order. -/

/-- The per-agent body of the `AGENT_TEAM_CONFIG_EVENT` arm
(`src/ctm/ctm.rs:173-224`): skip records without an `agent_id`; otherwise emit
`RequestAgentStateEvent`, `unwrap` the record's `agent_state` and
`state_duration`, then update the existing `AgentInfo` or create a new one,
and broadcast it untargeted. -/
def applyAtcAgent (now : Nat) (peripheral_id : Nat)
    (st : AgentMap × List BrokerEvent) (agent : AgentTeamConfigEventAgent) :
    Option (AgentMap × List BrokerEvent) :=
  match agent.agent_id with
  | none => some st
  | some fid =>
    let evs := st.2 ++ [BrokerEvent.requestAgentStateEvent peripheral_id fid.data]
    match agent.agent_state, agent.state_duration with
    | some stf, some duf =>
      match mapLookup st.1 fid.data with
      | some info =>
        let info := (info.set_agent_state stf.data).set_state_duration now duf.data
        some (mapUpdate st.1 fid.data info,
              evs ++ [BrokerEvent.broadCastAgentState none info])
      | none =>
        let info := ((AgentInfo.new fid.data).set_agent_state stf.data).set_state_duration now duf.data
        some (mapInsert st.1 fid.data info,
              evs ++ [BrokerEvent.broadCastAgentState none info])
    | _, _ => none

/-- The `AGENT_TEAM_CONFIG_EVENT` arm: fold `applyAtcAgent` over the decoded
agent records in order. -/
def handleAgentTeamConfigEvent (now : Nat) (e : AgentTeamConfigEvent)
    (m : AgentMap) : Option (AgentMap × List BrokerEvent) :=
  e.agents.foldlM (applyAtcAgent now e.peripheral_id) (m, [])

/-- The `QUERY_AGENT_STATE_CONF` arm (`src/ctm/ctm.rs:227-256`): `unwrap` the
`agent_id`, `skill_group_id` and `agent_extension` floating fields, then, if
the agent is known, apply the setters in source order (`skill_group_id` is
truncated `as u16`) and broadcast; unknown agents are dropped. -/
def handleQueryAgentStateConf (_now : Nat) (e : QueryAgentStateConf)
    (m : AgentMap) : Option (AgentMap × List BrokerEvent) :=
  match e.agent_id, e.skill_group_id, e.agent_extension with
  | some aid, some sgid, some ext =>
    match mapLookup m aid.data with
    | some info =>
      let info := info.set_agent_state e.agent_state
      let info := info.set_skill_group_id (sgid.data % 65536)
      let info := info.set_icm_agent_id e.icm_agent_id
      let info := info.set_agent_extension ext.data
      some (mapUpdate m aid.data info,
            [BrokerEvent.broadCastAgentState none info])
    | none => some (m, [])
  | _, _, _ => none

/-- The per-agent update sequence of the `AGENT_STATE_EVENT` arm
(`src/ctm/ctm.rs:276-282`): the seven setters in source order, `skill_group_id`
truncated `as u16`. -/
def applyAgentStateUpdate (now : Nat) (info : AgentInfo) (agent_state : Nat)
    (skill_group_id : Nat) (icm_agent_id : Int) (agent_extension : Bytes)
    (direction : Nat) (reason_code : Nat) (state_duration : Nat) : AgentInfo :=
  let info := info.set_agent_state agent_state
  let info := info.set_skill_group_id (skill_group_id % 65536)
  let info := info.set_icm_agent_id icm_agent_id
  let info := info.set_agent_extension agent_extension
  let info := info.set_direction direction
  let info := info.set_reason_code reason_code
  info.set_state_duration now state_duration

/-- The `AGENT_STATE_EVENT` arm (`src/ctm/ctm.rs:258-293`): `unwrap` the
`agent_id`, `agent_extension` and `direction` floating fields, then, if the
agent is known, apply `applyAgentStateUpdate` and broadcast; unknown agents
are dropped. -/
def handleAgentStateEvent (now : Nat) (e : AgentStateEvent)
    (m : AgentMap) : Option (AgentMap × List BrokerEvent) :=
  match e.agent_id, e.agent_extension, e.direction with
  | some aid, some ext, some dir =>
    match mapLookup m aid.data with
    | some info =>
      let info := applyAgentStateUpdate now info e.agent_state
        e.skill_group_id e.icm_agent_id ext.data dir.data
        e.event_reason_code e.state_duration
      some (mapUpdate m aid.data info,
            [BrokerEvent.broadCastAgentState none info])
    | none => some (m, [])
  | _, _, _ => none

/-- A projection input: one of the three message types the projection applies,
together with the observation time. -/
inductive ProjMsg where
  | teamConfig (e : AgentTeamConfigEvent)
  | queryConf (e : QueryAgentStateConf)
  | stateEvent (e : AgentStateEvent)
  deriving Repr

/-- One projection step at time `now`. -/
def projStep (m : AgentMap) (now : Nat) (msg : ProjMsg) :
    Option (AgentMap × List BrokerEvent) :=
  match msg with
  | ProjMsg.teamConfig e => handleAgentTeamConfigEvent now e m
  | ProjMsg.queryConf e => handleQueryAgentStateConf now e m
  | ProjMsg.stateEvent e => handleAgentStateEvent now e m

/-- Run the projection over a sequence of timestamped messages beginning from
map `m`; `none` if any step panics. -/
def projRun (m : AgentMap) : List (Nat × ProjMsg) → Option AgentMap
  | [] => some m
  | (now, msg) :: rest =>
    match projStep m now msg with
    | some (m2, _) => projRun m2 rest
    | none => none

/-!  ## Floating-field tag registry

The numeric registry lives in the repository's `tag_values.rs`, which is not
among the provided sources; the deserializers under `src/cisco` match on the
`TagValue` enum constructors only.  The spec fixes just that tags are 16-bit
values from a closed registry, so the constants below carry placeholder
values; they are pairwise distinct, and no theorem below depends on the
particular numbers. -/

/-- Modelled from the spec: placeholder registry value for `AGENT_EXTENSION_TAG`
(`tag_values.rs` is absent from the provided sources). -/
def AGENT_EXTENSION_TAG : Nat := 4

/-- Modelled from the spec: placeholder registry value for `AGENT_ID_TAG`. -/
def AGENT_ID_TAG : Nat := 5

/-- Modelled from the spec: placeholder registry value for `AGENT_INSTRUMENT_TAG`. -/
def AGENT_INSTRUMENT_TAG : Nat := 6

/-- Modelled from the spec: placeholder registry value for `AGENT_TEAM_NAME_TAG`. -/
def AGENT_TEAM_NAME_TAG : Nat := 100

/-- Modelled from the spec: placeholder registry value for `ATC_AGENT_ID_TAG`. -/
def ATC_AGENT_ID_TAG : Nat := 101

/-- Modelled from the spec: placeholder registry value for `AGENT_FLAGS_TAG`. -/
def AGENT_FLAGS_TAG : Nat := 102

/-- Modelled from the spec: placeholder registry value for `ATC_AGENT_STATE_TAG`. -/
def ATC_AGENT_STATE_TAG : Nat := 103

/-- Modelled from the spec: placeholder registry value for
`ATC_AGENT_STATE_DURATION_TAG`. -/
def ATC_AGENT_STATE_DURATION_TAG : Nat := 104

/-- Modelled from the spec: placeholder registry value for `SKILL_GROUP_NUMBER_TAG`. -/
def SKILL_GROUP_NUMBER_TAG : Nat := 110

/-- Modelled from the spec: placeholder registry value for `SKILL_GROUP_ID_TAG`. -/
def SKILL_GROUP_ID_TAG : Nat := 111

/-- Modelled from the spec: placeholder registry value for `SKILL_GROUP_PRIORITY_TAG`. -/
def SKILL_GROUP_PRIORITY_TAG : Nat := 112

/-- Modelled from the spec: placeholder registry value for `SKILL_GROUP_STATE_TAG`. -/
def SKILL_GROUP_STATE_TAG : Nat := 113

/-- Modelled from the spec: placeholder registry value for `INTERNAL_AGENT_STATE_TAG`. -/
def INTERNAL_AGENT_STATE_TAG : Nat := 114

/-- Modelled from the spec: placeholder registry value for `MAX_BEYOND_TASK_LIMIT_TAG`. -/
def MAX_BEYOND_TASK_LIMIT_TAG : Nat := 115

/-- Modelled from the spec: placeholder registry value for `DIRECTION_TAG`. -/
def DIRECTION_TAG : Nat := 120

/-!  ## The `AGENT_TEAM_CONFIG_EVENT` floating-field loop
(`src/cisco/supervisor/agent_team_config_event.rs:41-105`)

Each iteration re-runs `Option::<FloatingField<Vec<u8>>>::deserialize(&mut
buffer)` on the *unchanged* `buffer` (the call's returned remainder is
discarded and the callee does not shrink its argument); an arm advances only
by assigning `buffer = sub_buffer`.  A `FloatingField<Vec<u8>>` payload is the
entire remainder after the 4-byte tag+length header (`Vec<u8>::deserialize`
takes everything), so the typed sub-decoders below each arm consume from
there. -/

/-- Loop state of `AgentTeamConfigEvent::deserialize`. -/
structure AtcState where
  buffer : Bytes
  agent_team_name : Option (FloatingField Bytes)
  agents : List AgentTeamConfigEventAgent
  agent_index : Nat
  deriving Repr, DecidableEq

/-- Outcome of one loop iteration. -/
inductive AtcStep where
  | done (st : AtcState)
  | panic
  | next (st : AtcState)
  deriving Repr, DecidableEq

/-- `agents[agent_index] = ...`: indexed update, `none` on out-of-bounds
(a Rust index panic). -/
def setAgentAt (agents : List AgentTeamConfigEventAgent) (i : Nat)
    (f : AgentTeamConfigEventAgent → AgentTeamConfigEventAgent) :
    Option (List AgentTeamConfigEventAgent) :=
  match agents.get? i with
  | some a => some (agents.set i (f a))
  | none => none

/-- One iteration of the `AgentTeamConfigEvent::deserialize` loop.  The
`length == 0` guard fires `continue` *without advancing* `buffer`, and the
unknown-tag arm `_ => {}` likewise leaves `buffer` untouched — both yield
`AtcStep.next` with an unchanged state, exactly as the source does. -/
def atcStep (st : AtcState) : AtcStep :=
  match st.buffer with
  | [] => AtcStep.done st
  | t0 :: t1 :: l0 :: l1 :: data =>
    let tag := be16 t0 t1
    let length := be16 l0 l1
    if length = 0 then AtcStep.next st
    else if tag = AGENT_TEAM_NAME_TAG then
      match string_deserialize data with
      | none => AtcStep.panic
      | some (rem, s) =>
        AtcStep.next { st with
          buffer := rem
          agent_team_name := some ⟨tag, length, s⟩ }
    else if tag = ATC_AGENT_ID_TAG then
      match string_deserialize data with
      | none => AtcStep.panic
      | some (rem, s) =>
        AtcStep.next { st with
          buffer := rem
          agents := st.agents ++ [⟨some ⟨tag, length, s⟩, none, none, none⟩] }
    else if tag = AGENT_FLAGS_TAG then
      match u16_deserialize data with
      | none => AtcStep.panic
      | some (rem, v) =>
        match setAgentAt st.agents st.agent_index
            (fun a => { a with agent_flags := some ⟨tag, length, v⟩ }) with
        | none => AtcStep.panic
        | some agents2 =>
          AtcStep.next { st with
            buffer := rem
            agents := agents2 }
    else if tag = ATC_AGENT_STATE_TAG then
      match u16_deserialize data with
      | none => AtcStep.panic
      | some (rem, v) =>
        match setAgentAt st.agents st.agent_index
            (fun a => { a with agent_state := some ⟨tag, length, v⟩ }) with
        | none => AtcStep.panic
        | some agents2 =>
          AtcStep.next { st with
            buffer := rem
            agents := agents2 }
    else if tag = ATC_AGENT_STATE_DURATION_TAG then
      match u32_deserialize data with
      | none => AtcStep.panic
      | some (rem, v) =>
        match setAgentAt st.agents st.agent_index
            (fun a => { a with state_duration := some ⟨tag, length, v⟩ }) with
        | none => AtcStep.panic
        | some agents2 =>
          AtcStep.next { st with
            buffer := rem
            agents := agents2
            agent_index := st.agent_index + 1 }
    else AtcStep.next st
  | _ => AtcStep.panic

/-- Result of running a floating-field loop under a fuel bound. -/
inductive LoopResult (σ : Type) where
  | finished (st : σ)
  | panicked
  | outOfFuel (st : σ)
  deriving Repr, DecidableEq

/-- Iterate `atcStep` at most `fuel` times. -/
def atcLoop : Nat → AtcState → LoopResult AtcState
  | 0, st => LoopResult.outOfFuel st
  | fuel + 1, st =>
    match atcStep st with
    | AtcStep.done st2 => LoopResult.finished st2
    | AtcStep.panic => LoopResult.panicked
    | AtcStep.next st2 => atcLoop fuel st2

/-- Fixed-prefix parse of `AGENT_TEAM_CONFIG_EVENT`: `MHDR`, then
`peripheral_id : u32`, `team_id : u32`, `number_of_agents : u16`,
`config_operation : u16`, `department_id : i32`; returns the message skeleton
and the initial loop state. -/
def atc_parse_fixed (buffer : Bytes) : Option (AgentTeamConfigEvent × AtcState) :=
  match u32_deserialize buffer with
  | none => none
  | some (b1, len) =>
    match u32_deserialize b1 with
    | none => none
    | some (b2, mtype) =>
      match u32_deserialize b2 with
      | none => none
      | some (b3, peripheral_id) =>
        match u32_deserialize b3 with
        | none => none
        | some (b4, team_id) =>
          match u16_deserialize b4 with
          | none => none
          | some (b5, number_of_agents) =>
            match u16_deserialize b5 with
            | none => none
            | some (b6, config_operation) =>
              match i32_deserialize b6 with
              | none => none
              | some (b7, department_id) =>
                some ({ mhdr := ⟨len, mtype⟩, peripheral_id := peripheral_id,
                        team_id := team_id, number_of_agents := number_of_agents,
                        config_operation := config_operation,
                        department_id := department_id,
                        agent_team_name := none, agents := [] },
                      ⟨b7, none, [], 0⟩)

/-- Outcome of a whole-message deserialization under a fuel bound. -/
inductive DeserializeOutcome (α : Type) where
  | ok (rest : Bytes) (value : α)
  | panicked
  | outOfFuel
  deriving Repr, DecidableEq

/-- `AgentTeamConfigEvent::deserialize`, with the floating-field loop run
under a fuel bound (the source loop has no bound; `outOfFuel` witnesses that
it is still running after `fuel` iterations). -/
def agentTeamConfigEvent_deserialize (fuel : Nat) (buffer : Bytes) :
    DeserializeOutcome AgentTeamConfigEvent :=
  match atc_parse_fixed buffer with
  | none => DeserializeOutcome.panicked
  | some (skel, st0) =>
    match atcLoop fuel st0 with
    | LoopResult.finished st =>
      DeserializeOutcome.ok st.buffer
        { skel with agent_team_name := st.agent_team_name, agents := st.agents }
    | LoopResult.panicked => DeserializeOutcome.panicked
    | LoopResult.outOfFuel _ => DeserializeOutcome.outOfFuel

/-!  ## The `QUERY_AGENT_STATE_CONF` floating-field loop
(`src/cisco/control/query_agent_state_conf.rs:54-150`)

Unlike the team-config loop, the `length == 0` arm here assigns
`buffer = field.data` before `continue`, so it does advance past the 4-byte
header; the unknown-tag arm `_ => {}` still leaves `buffer` untouched. -/

/-- Loop state of `QueryAgentStateConf::deserialize`: the buffer plus the nine
floating accumulators, in source order. -/
structure QascState where
  buffer : Bytes
  agent_id : Option (FloatingField Bytes)
  agent_extension : Option (FloatingField Bytes)
  agent_instrument : Option (FloatingField Bytes)
  skill_group_number : Option (FloatingField Nat)
  skill_group_id : Option (FloatingField Nat)
  skill_group_priority : Option (FloatingField Nat)
  skill_group_state : Option (FloatingField Nat)
  internal_agent_state : Option (FloatingField Nat)
  max_beyond_task_limit : Option (FloatingField Nat)
  deriving Repr, DecidableEq

/-- Outcome of one `QueryAgentStateConf` loop iteration. -/
inductive QascStep where
  | done (st : QascState)
  | panic
  | next (st : QascState)
  deriving Repr, DecidableEq

/-- One iteration of the `QueryAgentStateConf::deserialize` loop. -/
def qascStep (st : QascState) : QascStep :=
  match st.buffer with
  | [] => QascStep.done st
  | t0 :: t1 :: l0 :: l1 :: data =>
    let tag := be16 t0 t1
    let length := be16 l0 l1
    if length = 0 then QascStep.next { st with buffer := data }
    else if tag = AGENT_ID_TAG then
      match string_deserialize data with
      | none => QascStep.panic
      | some (rem, s) =>
        QascStep.next { st with
          buffer := rem
          agent_id := some ⟨tag, length, s⟩ }
    else if tag = AGENT_EXTENSION_TAG then
      match string_deserialize data with
      | none => QascStep.panic
      | some (rem, s) =>
        QascStep.next { st with
          buffer := rem
          agent_extension := some ⟨tag, length, s⟩ }
    else if tag = AGENT_INSTRUMENT_TAG then
      match string_deserialize data with
      | none => QascStep.panic
      | some (rem, s) =>
        QascStep.next { st with
          buffer := rem
          agent_instrument := some ⟨tag, length, s⟩ }
    else if tag = SKILL_GROUP_NUMBER_TAG then
      match u32_deserialize data with
      | none => QascStep.panic
      | some (rem, v) =>
        QascStep.next { st with
          buffer := rem
          skill_group_number := some ⟨tag, length, v⟩ }
    else if tag = SKILL_GROUP_ID_TAG then
      match u32_deserialize data with
      | none => QascStep.panic
      | some (rem, v) =>
        QascStep.next { st with
          buffer := rem
          skill_group_id := some ⟨tag, length, v⟩ }
    else if tag = SKILL_GROUP_PRIORITY_TAG then
      match u16_deserialize data with
      | none => QascStep.panic
      | some (rem, v) =>
        QascStep.next { st with
          buffer := rem
          skill_group_priority := some ⟨tag, length, v⟩ }
    else if tag = SKILL_GROUP_STATE_TAG then
      match u16_deserialize data with
      | none => QascStep.panic
      | some (rem, v) =>
        QascStep.next { st with
          buffer := rem
          skill_group_state := some ⟨tag, length, v⟩ }
    else if tag = INTERNAL_AGENT_STATE_TAG then
      match u16_deserialize data with
      | none => QascStep.panic
      | some (rem, v) =>
        QascStep.next { st with
          buffer := rem
          internal_agent_state := some ⟨tag, length, v⟩ }
    else if tag = MAX_BEYOND_TASK_LIMIT_TAG then
      match u32_deserialize data with
      | none => QascStep.panic
      | some (rem, v) =>
        QascStep.next { st with
          buffer := rem
          max_beyond_task_limit := some ⟨tag, length, v⟩ }
    else QascStep.next st
  | _ => QascStep.panic

/-- Iterate `qascStep` at most `fuel` times. -/
def qascLoop : Nat → QascState → LoopResult QascState
  | 0, st => LoopResult.outOfFuel st
  | fuel + 1, st =>
    match qascStep st with
    | QascStep.done st2 => LoopResult.finished st2
    | QascStep.panic => LoopResult.panicked
    | QascStep.next st2 => qascLoop fuel st2

/-- Fixed-prefix parse of `QUERY_AGENT_STATE_CONF`: `MHDR`, then
`invoke_id : u32`, `agent_state : u16`, `num_skill_groups : u16`,
`mrd_id : i32`, `num_task : u32`, `agent_mode : u16`, `max_task_limit : u32`,
`icm_agent_id : i32`, `agent_availability_status : u32`,
`department_id : i32`. -/
def qasc_parse_fixed (buffer : Bytes) : Option (QueryAgentStateConf × QascState) :=
  match u32_deserialize buffer with
  | none => none
  | some (b1, len) =>
  match u32_deserialize b1 with
  | none => none
  | some (b2, mtype) =>
  match u32_deserialize b2 with
  | none => none
  | some (b3, invoke_id) =>
  match u16_deserialize b3 with
  | none => none
  | some (b4, agent_state) =>
  match u16_deserialize b4 with
  | none => none
  | some (b5, num_skill_groups) =>
  match i32_deserialize b5 with
  | none => none
  | some (b6, mrd_id) =>
  match u32_deserialize b6 with
  | none => none
  | some (b7, num_task) =>
  match u16_deserialize b7 with
  | none => none
  | some (b8, agent_mode) =>
  match u32_deserialize b8 with
  | none => none
  | some (b9, max_task_limit) =>
  match i32_deserialize b9 with
  | none => none
  | some (b10, icm_agent_id) =>
  match u32_deserialize b10 with
  | none => none
  | some (b11, agent_availability_status) =>
  match i32_deserialize b11 with
  | none => none
  | some (b12, department_id) =>
    some ({ mhdr := ⟨len, mtype⟩, invoke_id := invoke_id,
            agent_state := agent_state, num_skill_groups := num_skill_groups,
            mrd_id := mrd_id, num_task := num_task, agent_mode := agent_mode,
            max_task_limit := max_task_limit, icm_agent_id := icm_agent_id,
            agent_availability_status := agent_availability_status,
            department_id := department_id, agent_id := none,
            agent_extension := none, agent_instrument := none,
            skill_group_number := none, skill_group_id := none,
            skill_group_priority := none, skill_group_state := none,
            internal_agent_state := none, max_beyond_task_limit := none },
          ⟨b12, none, none, none, none, none, none, none, none, none⟩)

/-- `QueryAgentStateConf::deserialize`, floating-field loop under a fuel bound. -/
def queryAgentStateConf_deserialize (fuel : Nat) (buffer : Bytes) :
    DeserializeOutcome QueryAgentStateConf :=
  match qasc_parse_fixed buffer with
  | none => DeserializeOutcome.panicked
  | some (skel, st0) =>
    match qascLoop fuel st0 with
    | LoopResult.finished st =>
      DeserializeOutcome.ok st.buffer
        { skel with
          agent_id := st.agent_id
          agent_extension := st.agent_extension
          agent_instrument := st.agent_instrument
          skill_group_number := st.skill_group_number
          skill_group_id := st.skill_group_id
          skill_group_priority := st.skill_group_priority
          skill_group_state := st.skill_group_state
          internal_agent_state := st.internal_agent_state
          max_beyond_task_limit := st.max_beyond_task_limit }
    | LoopResult.panicked => DeserializeOutcome.panicked
    | LoopResult.outOfFuel _ => DeserializeOutcome.outOfFuel

/-- The `MessageType::QUERY_AGENT_STATE_CONF` arm of `CTIEvent::Recevied`
handling in `CTM::start`, composed with deserialization: decode the raw bytes,
then run `handleQueryAgentStateConf`.  `none` models the broker task dying:
a panic inside deserialization or the handler (there is no error path — the
arm has no teardown or logging branch for malformed bytes). -/
def ctm_on_query_agent_state_conf (fuel now : Nat) (m : AgentMap) (data : Bytes) :
    Option (AgentMap × List BrokerEvent) :=
  match queryAgentStateConf_deserialize fuel data with
  | DeserializeOutcome.ok _ e => handleQueryAgentStateConf now e m
  | DeserializeOutcome.panicked => none
  | DeserializeOutcome.outOfFuel => none

/-!  ## The session read loop (`CTIClient::connect`, `src/ctm/cti_client.rs:196-248`)

The `Ok(Ok(n))` arm first builds `reserved_buffer[0..reserved_length] ++
buffer[0..n]` into `received_packet` and zeroes `reserved_length` — and then
immediately shadows `received_packet` with `buffer[0..n].to_vec()` (the
comment in the source reads "슬라이스가 아닌 직접 참조 방식으로 변경"), so the
carry-over is computed and discarded.  The inner `while` then parses from the
shadowed buffer. -/

/-- `&v[a..b]`-style slice with Rust's panic condition (`none` when
`a > b` or `b > v.len()`). -/
def listSlice (l : Bytes) (a b : Nat) : Option Bytes :=
  if a ≤ b ∧ b ≤ l.length then some ((l.take b).drop a) else none

/-- The inner `while index < n` of the read loop.  Parses the 8-byte `MHDR` at
`index` (slice panic → `none`), then either breaks carrying
`received_packet[..n]` into the reserve buffer when `n < mhdr.length`, or
emits a `Received` event `(message_type, raw bytes)` and advances by
`8 + mhdr.length`.  Each iteration advances `index` by at least 8, so
`fuel = n + 1` never runs out; `none` also covers exhausted fuel for totality. -/
def readLoopGo (received : Bytes) (n : Nat) :
    Nat → Nat → List (Nat × Bytes) → Option (Bytes × List (Nat × Bytes))
  | _, 0, _ => none
  | index, fuel + 1, events =>
    if index < n then
      match listSlice received index (index + 8) with
      | none => none
      | some hdr =>
        let mlen := be32 (hdr.getD 0 0) (hdr.getD 1 0) (hdr.getD 2 0) (hdr.getD 3 0)
        let mtype := be32 (hdr.getD 4 0) (hdr.getD 5 0) (hdr.getD 6 0) (hdr.getD 7 0)
        if n < mlen then
          match listSlice received 0 n with
          | none => none
          | some carry => some (carry, events)
        else
          match listSlice received index (index + (mlen + 8)) with
          | none => none
          | some msg => readLoopGo received n (index + 8 + mlen) fuel (events ++ [(mtype, msg)])
    else some ([], events)

/-- One execution of the `Ok(Ok(n))` read arm: `reserved` is the carry-over
buffer content from the previous iteration, `newBytes` the bytes just read.
Returns the new carry-over content and the emitted `Received` events in
order (`none` = panic).  The binding `_received_with_carry` mirrors the
source's concatenation at lines 199-203, which line 206 then shadows. -/
def readLoopStep (reserved newBytes : Bytes) : Option (Bytes × List (Nat × Bytes)) :=
  let n := newBytes.length
  let _received_with_carry := reserved ++ newBytes
  let received_packet := newBytes
  readLoopGo received_packet n 0 (n + 1) []

/-!  ## WebSocket binary framing (`ClientStream::write_binary`,
`src/ctm/acceptor/websocket_acceptor.rs:301-346`)  -/

/-- The frame built by `write_binary`: first byte `FIN | BINARY`
(`0x80 | 0x02`), then the length bytes chosen by the `match length` ranges
(`0..126`, `126..65535`, `65535..`) using the source's mask-and-shift
arithmetic, then the payload. -/
def wsBinaryFrame (payload : Bytes) : Bytes :=
  let length := payload.length
  let lenBytes : Bytes :=
    if length < 126 then
      [length]
    else if length < 65535 then
      [126, (length &&& 0xFF00) >>> 8, length &&& 0x00FF]
    else
      [127,
       (length &&& 0xFF00000000000000) >>> 56,
       (length &&& 0x00FF000000000000) >>> 48,
       (length &&& 0x0000FF0000000000) >>> 40,
       (length &&& 0x000000FF00000000) >>> 32,
       (length &&& 0x00000000FF000000) >>> 24,
       (length &&& 0x0000000000FF0000) >>> 16,
       (length &&& 0x000000000000FF00) >>> 8,
       length &&& 0x00000000000000FF]
  ((0x80 : Nat) ||| 0x02) :: (lenBytes ++ payload)

/-- The framing the claim describes, written from its words: byte `0x82`, then
the 7-bit length for payloads shorter than 126 bytes, the 7+16-bit big-endian
form for payloads shorter than 65535 bytes, the 7+64-bit big-endian form
otherwise, then the payload. -/
def rfc6455BinaryFrameSpec (payload : Bytes) : Bytes :=
  let n := payload.length
  if n < 126 then
    0x82 :: n :: payload
  else if n < 65535 then
    0x82 :: 126 :: (n / 256 % 256) :: (n % 256) :: payload
  else
    0x82 :: 127 :: (n / 2 ^ 56 % 256) :: (n / 2 ^ 48 % 256) :: (n / 2 ^ 40 % 256) ::
      (n / 2 ^ 32 % 256) :: (n / 2 ^ 24 % 256) :: (n / 2 ^ 16 % 256) ::
      (n / 2 ^ 8 % 256) :: (n % 256) :: payload

/-!  ## Connect replay and the acceptor delivery filter
(`CTM::start` `ClientEvent::Connect` arm, `src/ctm/ctm.rs:315-324`;
`ClientStream::handle`, `src/ctm/acceptor/tcp_acceptor.rs:269-299`)  -/

/-- The `ClientEvent::Connect { id }` arm: one targeted
`BroadCastAgentState` per entry of the agent map. -/
def handleClientConnect (m : AgentMap) (id : ClientId) : List BrokerEvent :=
  m.map (fun p => BrokerEvent.broadCastAgentState (some id) p.2)

/-- Whether a per-client acceptor loop with id `selfId` writes the event to
its socket: `BroadCastAgentState` targeted at a different id is skipped
(`continue`), untargeted or own-id broadcasts are written, every other
`BrokerEvent` falls into `_ => {}`. -/
def acceptorDelivers (selfId : ClientId) (e : BrokerEvent) : Bool :=
  match e with
  | BrokerEvent.broadCastAgentState (some cid) _ => cid == selfId
  | BrokerEvent.broadCastAgentState none _ => true
  | _ => false

/-!  ## Concrete inputs used by the claim theorems  -/

/-- The agent id `"1001"` as UTF-8 bytes. -/
def c1agent : Bytes := [49, 48, 48, 49]

/-- A decoded `AGENT_TEAM_CONFIG_EVENT` carrying one record for agent
`"1001"` with the given state and wire duration. -/
def c1teamConfig (st dur : Nat) : AgentTeamConfigEvent :=
  { mhdr := ⟨20, 30⟩, peripheral_id := 5000, team_id := 1,
    number_of_agents := 1, config_operation := 0, department_id := 0,
    agent_team_name := none,
    agents := [⟨some ⟨ATC_AGENT_ID_TAG, 5, c1agent⟩, none,
                some ⟨ATC_AGENT_STATE_TAG, 2, st⟩,
                some ⟨ATC_AGENT_STATE_DURATION_TAG, 4, dur⟩⟩] }

/-- A decoded `AGENT_STATE_EVENT` logging agent `"1001"` out
(`agent_state = 1`) with `event_reason_code = 5`. -/
def c1stateEvent : AgentStateEvent :=
  { mhdr := ⟨60, 31⟩, monitor_id := 0, peripheral_id := 5000, session_id := 0,
    peripheral_type := 0, skill_group_state := 0, state_duration := 0,
    skill_group_number := 0, skill_group_id := 0, skill_group_priority := 0,
    agent_state := 1, event_reason_code := 5, mrd_id := 0, num_tasks := 0,
    agent_mode := 0, max_task_limit := 0, icm_agent_id := 7,
    agent_availability_status := 0, num_flt_skill_groups := 0,
    department_id := 0, cti_client_signature := none,
    agent_id := some ⟨AGENT_ID_TAG, 5, c1agent⟩,
    agent_extension := some ⟨AGENT_EXTENSION_TAG, 5, [50, 48, 48, 49]⟩,
    active_terminal := none, agent_instrument := none, duration := none,
    next_agent_state := none, direction := some ⟨DIRECTION_TAG, 4, 2⟩,
    flt_skill_group_number := none, flt_skill_group_id := none,
    flt_skill_group_priority := none, flt_skill_group_state := none,
    max_beyond_task_limit := none }

/-- The three-message projection run for C1: create agent `"1001"` in state 1,
log it out with reason 5, then a team-config update moves it to state 3. -/
def c1run : Option AgentMap :=
  projRun [] [(1000, ProjMsg.teamConfig (c1teamConfig 1 0)),
              (1001, ProjMsg.stateEvent c1stateEvent),
              (1002, ProjMsg.teamConfig (c1teamConfig 3 0))]

/-- The resulting record: `agent_state = 3` but `reason_code = 5`. -/
def c1final : AgentInfo :=
  { icm_agent_id := 7, agent_id := c1agent, agent_state := 3,
    state_duration := 1002, reason_code := 5, skill_group_id := 0,
    direction := 0, agent_extension := [] }

/-- A 20-byte CTI message for C2: header `length = 12`, `message_type = 25`,
then a 12-byte body whose first four bytes are `[0, 0, 1, 0]` (so that,
re-parsed as a header, they announce a 256-byte message). -/
def c2msg : Bytes :=
  [0, 0, 0, 12, 0, 0, 0, 25, 0, 0, 1, 0, 0, 0, 0, 0, 0, 0, 0, 0]

/-- An `AGENT_TEAM_CONFIG_EVENT` for C3 whose body ends in a zero-length
floating field: 8-byte header (`length = 20`, `message_type = 30`), the
16-byte fixed prefix (`peripheral_id = 5000`, `team_id = 1`,
`number_of_agents = 1`, `config_operation = 0`, `department_id = 0`), then
the 4-byte TLV `tag = 100, length = 0`. -/
def c3msg : Bytes :=
  [0, 0, 0, 20, 0, 0, 0, 30,
   0, 0, 19, 136, 0, 0, 0, 1, 0, 1, 0, 0, 0, 0, 0, 0,
   0, 100, 0, 0]

/-- The loop state reached after the fixed prefix of `c3msg`. -/
def c3state : AtcState := ⟨[0, 100, 0, 0], none, [], 0⟩

/-- A `QUERY_AGENT_STATE_CONF` for C7 whose `agent_extension` floating field
carries the body `[0xFF, 0x00]` — `0xFF` is not valid UTF-8, so
`String::from_utf8(..).unwrap()` panics.  Prefix: header (`length = 40`,
`message_type = 40`), `invoke_id = 1`, `agent_state = 3`, then zeroed fixed
fields with `icm_agent_id = 7`. -/
def c7msg : Bytes :=
  [0, 0, 0, 40, 0, 0, 0, 40,
   0, 0, 0, 1, 0, 3, 0, 0, 0, 0, 0, 0, 0, 0, 0, 0, 0, 0,
   0, 0, 0, 0, 0, 0, 0, 7, 0, 0, 0, 0, 0, 0, 0, 0,
   0, 4, 0, 2, 255, 0]

/-- The loop state reached after the fixed prefix of `c7msg`. -/
def c7state : QascState :=
  ⟨[0, 4, 0, 2, 255, 0], none, none, none, none, none, none, none, none, none⟩

/-!  ## Theorems  -/

/-- Extracting byte `k/8` by mask-and-shift equals divide-and-mod. -/
theorem and_byte_mask_shiftRight (k x : Nat) :
    (x &&& 255 * 2 ^ k) >>> k = x / 2 ^ k % 256 := by
  induction k generalizing x with
  | zero =>
    have h := Nat.and_pow_two_sub_one_eq_mod x 8
    norm_num at h ⊢
    exact h
  | succ k ih =>
    have hmask : 255 * 2 ^ (k + 1) / 2 = 255 * 2 ^ k := by
      rw [pow_succ, ← mul_assoc]
      exact Nat.mul_div_cancel _ (by norm_num)
    calc (x &&& 255 * 2 ^ (k + 1)) >>> (k + 1)
        = ((x &&& 255 * 2 ^ (k + 1)) / 2) >>> k := Nat.shiftRight_succ_inside _ _
      _ = (x / 2 &&& 255 * 2 ^ k) >>> k := by rw [Nat.and_div_two, hmask]
      _ = x / 2 / 2 ^ k % 256 := ih (x / 2)
      _ = x / 2 ^ (k + 1) % 256 := by
          rw [Nat.div_div_eq_div_mul, pow_succ, mul_comm 2 (2 ^ k), ← pow_succ]

/-- Claim C9: every outbound WebSocket payload after the upgrade is framed by
`write_binary` as a single unmasked binary frame — first byte `0x82`
(FIN=1, opcode 2), then the 7-bit length form for payloads shorter than 126
bytes, the 7+16-bit big-endian form for payloads shorter than 65535 bytes,
and the 7+64-bit big-endian form otherwise, followed by the payload bytes;
in particular a 10-byte payload is framed as `0x82 0x0A` followed by the
10 bytes. -/
theorem claim_C9_ws_binary_framing (payload : Bytes) :
    wsBinaryFrame payload = rfc6455BinaryFrameSpec payload ∧
    (payload.length = 10 → wsBinaryFrame payload = 0x82 :: 0x0A :: payload) := by
  have h0 : ∀ x : Nat, x &&& 255 = x % 256 := by
    intro x
    have h := Nat.and_pow_two_sub_one_eq_mod x 8
    norm_num at h
    exact h
  have h8 := fun x => and_byte_mask_shiftRight 8 x
  have h16 := fun x => and_byte_mask_shiftRight 16 x
  have h24 := fun x => and_byte_mask_shiftRight 24 x
  have h32 := fun x => and_byte_mask_shiftRight 32 x
  have h40 := fun x => and_byte_mask_shiftRight 40 x
  have h48 := fun x => and_byte_mask_shiftRight 48 x
  have h56 := fun x => and_byte_mask_shiftRight 56 x
  norm_num at h8 h16 h24 h32 h40 h48 h56
  have hor : (128 : Nat) ||| 2 = 130 := by decide
  have main : wsBinaryFrame payload = rfc6455BinaryFrameSpec payload := by
    unfold wsBinaryFrame rfc6455BinaryFrameSpec
    rcases Nat.lt_or_ge payload.length 126 with hlt | hge
    · simp [hlt]
    · rcases Nat.lt_or_ge payload.length 65535 with hlt2 | hge2
      · simp only [Nat.not_lt_of_ge hge, if_neg, if_pos hlt2, ite_false, ite_true]
        norm_num [Nat.not_lt_of_ge hge, h8, h0, hor]
      · simp only [Nat.not_lt_of_ge hge, Nat.not_lt_of_ge hge2, ite_false]
        norm_num [Nat.not_lt_of_ge hge, Nat.not_lt_of_ge hge2,
          h8, h16, h24, h32, h40, h48, h56, h0, hor]
  refine ⟨main, fun hlen => ?_⟩
  rw [main]
  unfold rfc6455BinaryFrameSpec
  rw [hlen]
  norm_num

/-- Witness for C9 at a concrete 10-byte payload. -/
theorem claim_C9_witness :
    wsBinaryFrame (List.replicate 10 7) = 0x82 :: 0x0A :: List.replicate 10 7 :=
  (claim_C9_ws_binary_framing (List.replicate 10 7)).2 (by decide)

/-- Claim C6: handling `ClientEvent::Connect { id }` emits exactly one
`BroadCastAgentState` per entry of the agent map, each targeted at `id`, and
the per-client loop of an acceptor with any other client id skips every one
of those targeted events. -/
theorem claim_C6_connect_snapshot (m : AgentMap) (id : ClientId) :
    (handleClientConnect m id).length = m.length ∧
    (∀ e ∈ handleClientConnect m id,
      ∃ info, e = BrokerEvent.broadCastAgentState (some id) info) ∧
    (∀ other : ClientId, other ≠ id →
      ∀ e ∈ handleClientConnect m id, acceptorDelivers other e = false) := by
  refine ⟨List.length_map _ _, ?_, ?_⟩
  · intro e he
    rcases List.mem_map.mp he with ⟨p, _, rfl⟩
    exact ⟨p.2, rfl⟩
  · intro other hne e he
    rcases List.mem_map.mp he with ⟨p, _, rfl⟩
    show (id == other) = false
    exact beq_eq_false_iff_ne.mpr (fun h => hne h.symm)

/-- Witness for C6: a one-entry map, the connecting client `1`, and the other
client `2` which does not deliver the targeted event. -/
theorem claim_C6_witness :
    (handleClientConnect [([49], AgentInfo.new [49])] 1).length = 1 ∧
    acceptorDelivers 2 (BrokerEvent.broadCastAgentState (some 1) (AgentInfo.new [49])) = false :=
  ⟨(claim_C6_connect_snapshot [([49], AgentInfo.new [49])] 1).1,
   (claim_C6_connect_snapshot [([49], AgentInfo.new [49])] 1).2.2 2 (by decide) _ (by decide)⟩

/-- Claim C5: on every path that sets it — the `AGENT_TEAM_CONFIG_EVENT`
update of an existing agent, the creation of a new agent on that path, and
the `AGENT_STATE_EVENT` update — an event carrying wire state duration `d`
observed at Unix time `now` leaves `state_duration = now - d`, a wall-clock
start-of-state timestamp (durations do not exceed the current time, and the
current time fits in `u64`). -/
theorem claim_C5_state_duration (now d st sg dir rc : Nat) (icm : Int)
    (info : AgentInfo) (aid ext : Bytes)
    (hd : d ≤ now) (hnow : now < U64_MOD) :
    ((info.set_agent_state st).set_state_duration now d).state_duration = now - d ∧
    (((AgentInfo.new aid).set_agent_state st).set_state_duration now d).state_duration = now - d ∧
    (applyAgentStateUpdate now info st sg icm ext dir rc d).state_duration = now - d := by
  have key : ∀ a : AgentInfo, (a.set_state_duration now d).state_duration = now - d := by
    intro a
    show u64_wrapping_sub now d = now - d
    unfold U64_MOD at hnow
    unfold u64_wrapping_sub U64_MOD
    omega
  exact ⟨key _, key _, key _⟩

/-- Witness for C5 at `now = 100`, `d = 30`. -/
theorem claim_C5_witness :
    (((AgentInfo.new [49]).set_agent_state 3).set_state_duration 100 30).state_duration = 70 :=
  (claim_C5_state_duration 100 30 3 0 0 0 0 (AgentInfo.new [49]) [49] []
    (by decide) (by decide)).2.1

/-- Claim C10: the broker's `QUERY_AGENT_STATE_CONF` handler completes without
panicking exactly when the `agent_id`, `skill_group_id` and `agent_extension`
floating fields are all present, and the `AGENT_STATE_EVENT` handler exactly
when `agent_id`, `agent_extension` and `direction` are all present; a missing
field panics the unwrap instead of dropping the event. -/
theorem claim_C10_unconditional_unwraps (now : Nat) (e : QueryAgentStateConf)
    (e2 : AgentStateEvent) (m : AgentMap) :
    ((handleQueryAgentStateConf now e m).isSome ↔
      (e.agent_id.isSome ∧ e.skill_group_id.isSome ∧ e.agent_extension.isSome)) ∧
    ((handleAgentStateEvent now e2 m).isSome ↔
      (e2.agent_id.isSome ∧ e2.agent_extension.isSome ∧ e2.direction.isSome)) := by
  constructor
  · rcases e with ⟨mh, iv, ast, nsg, mrd, ntk, amd, mtl, icm, aas, dep,
      aid, aext, ains, sgn, sgid, sgp, sgs, ias, mbtl⟩
    cases aid <;> cases sgid <;> cases aext <;>
      simp only [handleQueryAgentStateConf, Option.isSome] <;>
      simp
    rename_i a b c
    cases mapLookup m a.data <;> simp
  · rcases e2 with ⟨mh, mon, per, ses, pt, sgst, sd, sgn, sgid, sgp, ast, erc,
      mrd, ntk, amd, mtl, icm, aas, nfsg, dep, sig, aid, aext, term, ains,
      dur, nas, dir, fsgn, fsgi, fsgp, fsgs, mbtl⟩
    cases aid <;> cases aext <;> cases dir <;>
      simp only [handleAgentStateEvent, Option.isSome] <;>
      simp
    rename_i a b c
    cases mapLookup m a.data <;> simp

/-- The first NUL in `s ++ 0 :: rest` sits at index `s.length` when `s` is
NUL-free. -/
theorem findIdx_zero_append (s rest : Bytes) (h : ∀ b ∈ s, b ≠ 0) :
    (s ++ 0 :: rest).findIdx? (fun b => b == 0) = some s.length := by
  induction s with
  | nil => simp
  | cons a t ih =>
    have ha : (a == 0) = false :=
      beq_eq_false_iff_ne.mpr (h a (List.mem_cons_self a t))
    have ht : ∀ b ∈ t, b ≠ 0 := fun b hb => h b (List.mem_cons_of_mem a hb)
    simp [List.findIdx?_cons, ha, List.findIdx?_succ, ih ht]

/-- Claim C8: the string codec round-trips — `encode("abc")` is
`[0x61, 0x62, 0x63, 0x00]`, and for every NUL-free valid-UTF-8 byte string
`s`, decoding `encode(s)` (with arbitrary following bytes) returns `s` and
consumes exactly `len(s) + 1` bytes, i.e. leaves exactly the following
bytes as the remainder. -/
theorem claim_C8_string_roundtrip (s rest : Bytes)
    (hnul : ∀ b ∈ s, b ≠ 0) (hutf : validUtf8 s = true) :
    string_deserialize (string_serialize s ++ rest) = some (rest, s) ∧
    string_serialize [0x61, 0x62, 0x63] = [0x61, 0x62, 0x63, 0x00] := by
  refine ⟨?_, rfl⟩
  have happ : string_serialize s ++ rest = s ++ 0 :: rest := by
    simp [string_serialize]
  have htake : (s ++ 0 :: rest).take s.length = s := List.take_left s (0 :: rest)
  have hdrop : (s ++ 0 :: rest).drop (s.length + 1) = rest := by
    rw [← List.drop_drop, List.drop_left]
    rfl
  unfold string_deserialize
  rw [happ, findIdx_zero_append s rest hnul]
  simp only [htake, hdrop, hutf, if_true]

/-- Witness for C8 at `s = "abc"` (UTF-8 bytes `[0x61, 0x62, 0x63]`). -/
theorem claim_C8_witness :
    string_deserialize (string_serialize [0x61, 0x62, 0x63] ++ []) =
      some ([], [0x61, 0x62, 0x63]) :=
  (claim_C8_string_roundtrip [0x61, 0x62, 0x63] [] (by decide) (by decide)).1

/-!  ## Claim C1: the reason-code invariant  -/

/-- Counterexample to C1 as stated: after the concrete three-message sequence
the agent sits in `agent_state = 3 ∉ {1, 2}` yet `reason_code = 5 ≠ 0` — the
`AGENT_TEAM_CONFIG_EVENT` path updates only `agent_state` and
`state_duration`, so the stale reason code survives the transition out of
LOGOUT. -/
theorem claim_C1_counterexample :
    (c1run.bind fun m => mapLookup m c1agent) = some c1final ∧
    c1final.agent_state ≠ 1 ∧ c1final.agent_state ≠ 2 ∧
    c1final.reason_code ≠ 0 := by decide

/-- `set_skill_group_id` leaves `agent_state` unchanged. -/
theorem set_skill_group_id_agent_state (a : AgentInfo) (v : Nat) :
    (a.set_skill_group_id v).agent_state = a.agent_state := by
  unfold AgentInfo.set_skill_group_id
  split <;> rfl

/-- `set_icm_agent_id` leaves `agent_state` unchanged. -/
theorem set_icm_agent_id_agent_state (a : AgentInfo) (v : Int) :
    (a.set_icm_agent_id v).agent_state = a.agent_state := rfl

/-- `set_agent_extension` leaves `agent_state` unchanged. -/
theorem set_agent_extension_agent_state (a : AgentInfo) (v : Bytes) :
    (a.set_agent_extension v).agent_state = a.agent_state := by
  unfold AgentInfo.set_agent_extension
  split <;> rfl

/-- `set_direction` leaves `agent_state` unchanged. -/
theorem set_direction_agent_state (a : AgentInfo) (v : Nat) :
    (a.set_direction v).agent_state = a.agent_state := by
  unfold AgentInfo.set_direction
  split <;> rfl

/-- `set_reason_code` leaves `agent_state` unchanged. -/
theorem set_reason_code_agent_state (a : AgentInfo) (v : Nat) :
    (a.set_reason_code v).agent_state = a.agent_state := by
  unfold AgentInfo.set_reason_code
  split <;> rfl

/-- `set_state_duration` leaves `agent_state` unchanged. -/
theorem set_state_duration_agent_state (a : AgentInfo) (now v : Nat) :
    (a.set_state_duration now v).agent_state = a.agent_state := rfl

/-- `set_state_duration` leaves `reason_code` unchanged. -/
theorem set_state_duration_reason_code (a : AgentInfo) (now v : Nat) :
    (a.set_state_duration now v).reason_code = a.reason_code := rfl

/-- Away from states 1 and 2, `set_reason_code` forces 0. -/
theorem set_reason_code_eq_zero (a : AgentInfo) (v : Nat)
    (h1 : a.agent_state ≠ 1) (h2 : a.agent_state ≠ 2) :
    (a.set_reason_code v).reason_code = 0 := by
  unfold AgentInfo.set_reason_code
  split
  next h => exact absurd h h1
  next h => exact absurd h h2
  next => rfl

/-- The `AGENT_STATE_EVENT` update leaves `agent_state` at the incoming
value. -/
theorem applyAgentStateUpdate_agent_state (now st sg dir rc sd : Nat)
    (icm : Int) (info : AgentInfo) (ext : Bytes) :
    (applyAgentStateUpdate now info st sg icm ext dir rc sd).agent_state = st := by
  unfold applyAgentStateUpdate
  rw [set_state_duration_agent_state, set_reason_code_agent_state,
    set_direction_agent_state, set_agent_extension_agent_state,
    set_icm_agent_id_agent_state, set_skill_group_id_agent_state]
  rfl

/-- Claim C1 (amended): the invariant holds for every update that goes
through `set_reason_code`, i.e. the `AGENT_STATE_EVENT` path — after
`applyAgentStateUpdate`, if the resulting `agent_state` is not 1 or 2 then
`reason_code = 0`.  (The team-config and query-conf paths do not write
`reason_code` at all.) -/
theorem claim_C1_amended_reason_code (now st sg dir rc sd : Nat) (icm : Int)
    (info : AgentInfo) (ext : Bytes)
    (h1 : (applyAgentStateUpdate now info st sg icm ext dir rc sd).agent_state ≠ 1)
    (h2 : (applyAgentStateUpdate now info st sg icm ext dir rc sd).agent_state ≠ 2) :
    (applyAgentStateUpdate now info st sg icm ext dir rc sd).reason_code = 0 := by
  rw [applyAgentStateUpdate_agent_state] at h1 h2
  unfold applyAgentStateUpdate
  rw [set_state_duration_reason_code]
  apply set_reason_code_eq_zero
  all_goals
    rw [set_direction_agent_state, set_agent_extension_agent_state,
      set_icm_agent_id_agent_state, set_skill_group_id_agent_state]
  · exact h1
  · exact h2

/-- Witness for the amended C1 at state 3. -/
theorem claim_C1_amended_witness :
    (applyAgentStateUpdate 1002 (AgentInfo.new c1agent) 3 0 7 [] 2 5 0).reason_code = 0 :=
  claim_C1_amended_reason_code 1002 3 0 2 5 0 7 (AgentInfo.new c1agent) []
    (by decide) (by decide)

/-!  ## Claim C2: packet reassembly across reads  -/

/-- C2 evaluated on the code: split `c2msg` at `k = 8`.  The first read
correctly carries the 8 header bytes over and emits nothing — but the second
read emits nothing either (instead of exactly one `Received` with `c2msg`):
line 206 of `cti_client.rs` re-binds `received_packet` to the new bytes only,
so the loop parses a header out of the message *body* and carries the
fragment over forever.  The third conjunct checks the model against the
unfragmented delivery, which does emit the single exact message. -/
theorem claim_C2_codebug :
    readLoopStep [] (c2msg.take 8) = some (c2msg.take 8, []) ∧
    readLoopStep (c2msg.take 8) (c2msg.drop 8) = some (c2msg.drop 8, []) ∧
    readLoopStep [] c2msg = some ([], [(25, c2msg)]) := by decide

/-!  ## Claim C3: termination of the floating-field loops  -/

/-- C3 evaluated on the code: the `AgentTeamConfigEvent::deserialize` loop
hits the zero-length field, `continue`s without moving the buffer (the first
conjunct shows one iteration returns the state unchanged), and therefore
never reaches the end of the body: for every iteration bound the
deserialization is still running.  The claim's required behaviour — consume
the 4-byte header and terminate — does not hold on this code. -/
theorem claim_C3_codebug :
    atcStep c3state = AtcStep.next c3state ∧
    ∀ fuel, agentTeamConfigEvent_deserialize fuel c3msg = DeserializeOutcome.outOfFuel := by
  have hstep : atcStep c3state = AtcStep.next c3state := by decide
  have hloop : ∀ f, atcLoop f c3state = LoopResult.outOfFuel c3state := by
    intro f
    induction f with
    | zero => rfl
    | succ n ih => simp [atcLoop, hstep, ih]
  refine ⟨hstep, fun fuel => ?_⟩
  have hfix : atc_parse_fixed c3msg =
      some ({ mhdr := ⟨20, 30⟩, peripheral_id := 5000, team_id := 1,
              number_of_agents := 1, config_operation := 0, department_id := 0,
              agent_team_name := none, agents := [] }, c3state) := by decide
  unfold agentTeamConfigEvent_deserialize
  rw [hfix]
  simp [hloop]

/-!  ## Claim C7: structurally broken strings  -/

/-- Counterexample to C7 as stated: on the concrete broken message the
broker's `QUERY_AGENT_STATE_CONF` arm does not complete — the model returns
`none`, the embedded image of the `unwrap` panic inside `String` decoding.
Nothing is logged-and-dropped and no session teardown is triggered: the arm
has no error path at all, so the claim's "protocol violation is logged and
the current session is torn down (the broker keeps running)" is false on
this input. -/
theorem claim_C7_counterexample :
    ctm_on_query_agent_state_conf 5 1000 [] c7msg = none := by decide

/-- Claim C7 (amended): a string floating field whose body is not valid UTF-8
(or has no NUL) makes the deserialization `unwrap` panic inside the broker
task — for every fuel bound, observation time and agent map the
`QUERY_AGENT_STATE_CONF` arm dies on `c7msg` instead of logging the event and
tearing the session down. -/
theorem claim_C7_amended_panic (fuel now : Nat) (m : AgentMap) :
    ctm_on_query_agent_state_conf fuel now m c7msg = none := by
  have hfix : qasc_parse_fixed c7msg =
      some ({ mhdr := ⟨40, 40⟩, invoke_id := 1, agent_state := 3,
              num_skill_groups := 0, mrd_id := 0, num_task := 0,
              agent_mode := 0, max_task_limit := 0, icm_agent_id := 7,
              agent_availability_status := 0, department_id := 0,
              agent_id := none, agent_extension := none,
              agent_instrument := none, skill_group_number := none,
              skill_group_id := none, skill_group_priority := none,
              skill_group_state := none, internal_agent_state := none,
              max_beyond_task_limit := none }, c7state) := by decide
  have hstep : qascStep c7state = QascStep.panic := by decide
  cases fuel with
  | zero =>
    unfold ctm_on_query_agent_state_conf queryAgentStateConf_deserialize
    rw [hfix]
    rfl
  | succ n =>
    unfold ctm_on_query_agent_state_conf queryAgentStateConf_deserialize
    rw [hfix]
    have hl : qascLoop (n + 1) c7state = LoopResult.panicked := by
      simp [qascLoop, hstep]
    simp [hl]

end CtmRs
